import Mathlib

/-!
Verification of the plans workflow backend (Django app `plans`).

This file gives a shallow embedding, in Lean 4, of the parts of the
repository that decide the frozen claims: the role/access predicates of
src/plans/views/base.py, the entry-window calculators of
src/plans/models.py, the AnnualPlan workflow endpoints of
src/plans/views/annual_plans.py, the QuarterlyReport endpoints of
src/plans/views/quarterly_reports.py, and the aggregation endpoints of
src/plans/views/api.py and src/plans/views/audit.py.

Conventions of the embedding:
  - Django model rows become Lean structures; foreign keys become ids
    (Nat); related managers (plan.targets, report.entries) become lists
    stored on the parent structure; a table becomes a list of rows.
  - datetimes are modelled as a Nat count of seconds on the proleptic
    Gregorian calendar in one fixed timezone.  Python datetime comparison
    and timedelta addition in one fixed zone correspond exactly to Nat
    comparison and addition of second counts.
  - each endpoint method becomes a pure function from its inputs and the
    relevant rows to a response plus the post-state rows.  A Python
    statement that would raise an uncaught exception (attribute access on
    None, a foreign-key assignment of the wrong model instance, an
    uncaught DoesNotExist) is modelled as the response `Resp.crash`;
    rejections that the view itself returns become `Resp.err` with the
    error taxonomy kind.
-/

namespace Plans

/-- Roles of UserProfile.ROLE_CHOICES in src/plans/models.py. -/
inductive Role where
  | SUPERADMIN
  | STRATEGIC_AFFAIRS
  | STATE_MINISTER
  | ADVISOR
deriving DecidableEq, Repr

/-- Workflow statuses of AnnualPlan.STATUS_CHOICES / QuarterlyReport.STATUS_CHOICES. -/
inductive Status where
  | DRAFT
  | SUBMITTED
  | APPROVED
  | REJECTED
deriving DecidableEq, Repr

/-- Audit actions: WorkflowAudit.ACTION_CHOICES plus the DELETE tag that the
views pass to log_workflow_action (CharField choices are not enforced on
`objects.create`, so DELETE rows are written even though the choice list
lacks them). -/
inductive AuditAction where
  | CREATE
  | SUBMIT
  | APPROVE
  | REJECT
  | IMPORT
  | UPDATE
  | DELETE
deriving DecidableEq, Repr

/-- The error taxonomy of the specification (section 7), used to tag the
caller-visible rejections the views return.  The code base contains no
WindowClosed rejection anywhere, so no such constructor exists here. -/
inductive ApiError where
  | permissionDenied
  | invalidState
  | emptyEntity
  | invalidIndicator
  | notFound
  | validationError
deriving DecidableEq, Repr

/-- Outcome of one request: a handled success, a handled rejection, or an
uncaught Python exception escaping the view (an HTTP 500 crash). -/
inductive Resp (α : Type) where
  | ok (val : α)
  | err (e : ApiError)
  | crash
deriving DecidableEq, Repr

/-- UserProfile row: `(role, unit)` attached to a user (models.py). -/
structure UserProfile where
  role : Role
  unit : Nat
deriving DecidableEq, Repr

/-- A Django auth user as the views see it: an id, the `is_anonymous` flag,
and the optional related profile (`user.profile` raises
UserProfile.DoesNotExist when absent, which get_user_profile catches). -/
structure AuthUser where
  id : Nat
  isAnonymous : Bool
  profile : Option UserProfile
deriving DecidableEq, Repr

/-- views/base.py get_user_profile: None for anonymous users and for users
without a profile row. -/
def getUserProfile (user : AuthUser) : Option UserProfile :=
  if user.isAnonymous then none else user.profile

/-- views/base.py can_user_access_unit: no profile means no access;
SUPERADMIN accesses every unit; otherwise only the profile's own unit. -/
def canUserAccessUnit (user : AuthUser) (unit : Nat) : Bool :=
  match getUserProfile user with
  | none => false
  | some profile =>
    if profile.role = Role.SUPERADMIN then true
    else decide (profile.unit = unit)

/-- The role test of the approve / reject / bulk endpoints:
`profile.role in [SUPERADMIN, STRATEGIC_AFFAIRS]`. -/
def roleCanApprove (role : Role) : Bool :=
  decide (role = Role.SUPERADMIN) || decide (role = Role.STRATEGIC_AFFAIRS)

/-! ## Calendar arithmetic

`timezone.datetime(y, m, d, h, mi, s)` values in one fixed timezone are
embedded as the count of seconds from the start of the proleptic Gregorian
calendar; `timedelta(days=n)` becomes `n * 86400`. -/

/-- Gregorian leap-year rule. -/
def isLeapYear (y : Nat) : Bool :=
  (y % 4 = 0 && y % 100 ≠ 0) || y % 400 = 0

/-- Day lengths of the twelve months of year `y`. -/
def monthLengths (y : Nat) : List Nat :=
  [31, if isLeapYear y then 29 else 28, 31, 30, 31, 30, 31, 31, 30, 31, 30, 31]

/-- Days in the years strictly before year `y` (years count from 1). -/
def daysBeforeYear (y : Nat) : Nat :=
  let p := y - 1
  365 * p + p / 4 - p / 100 + p / 400

/-- Days in the months of year `y` strictly before month `m`. -/
def daysBeforeMonth (y m : Nat) : Nat :=
  ((monthLengths y).take (m - 1)).sum

/-- Seconds count of the instant `y-m-d h:mi:s`. -/
def dt (y m d h mi s : Nat) : Nat :=
  (daysBeforeYear y + daysBeforeMonth y m + (d - 1)) * 86400 + h * 3600 + mi * 60 + s

/-- `timedelta(days = n)` in seconds. -/
def days (n : Nat) : Nat := n * 86400

/-! ## Data model -/

/-- Indicator row (models.py): the fields the claims touch. -/
structure Indicator where
  id : Nat
  code : String
  ownerUnit : Nat
  active : Bool
deriving DecidableEq, Repr

/-- AnnualPlanTarget row; decimal values are modelled as scaled integers. -/
structure AnnualPlanTarget where
  indicatorId : Nat
  targetValue : Int
  baselineValue : Option Int
  remarks : String
deriving DecidableEq, Repr

/-- AnnualPlan row with its related targets. -/
structure AnnualPlan where
  id : Nat
  year : Nat
  unit : Nat
  status : Status
  createdBy : Nat
  submittedAt : Option Nat
  approvedBy : Option Nat
  approvedAt : Option Nat
  entryWindowStart : Option Nat
  entryWindowEnd : Option Nat
  targets : List AnnualPlanTarget
deriving DecidableEq, Repr

/-- models.py AnnualPlan.default_entry_window: Jan 1 00:00 of the plan's
year through 30 days later. -/
def AnnualPlan.defaultEntryWindow (p : AnnualPlan) : Nat × Nat :=
  let start := dt p.year 1 1 0 0 0
  (start, start + days 30)

/-- models.py AnnualPlan.is_within_entry_window: use the stored window when
both fields are set (a datetime is never falsy in Python, so `not start or
not end` tests exactly for None); otherwise recompute both bounds from the
default rule; then test `start <= when <= end`. -/
def AnnualPlan.isWithinEntryWindow (p : AnnualPlan) (when : Nat) : Bool :=
  let window :=
    match p.entryWindowStart, p.entryWindowEnd with
    | some s, some e => (s, e)
    | _, _ => p.defaultEntryWindow
  decide (window.1 ≤ when) && decide (when ≤ window.2)

/-- QuarterlyIndicatorEntry row. -/
structure QuarterlyIndicatorEntry where
  indicatorId : Nat
  achievedValue : Int
  remarks : String
  updatedBy : Nat
deriving DecidableEq, Repr

/-- QuarterlyReport row with its related entries. -/
structure QuarterlyReport where
  id : Nat
  year : Nat
  quarter : Nat
  unit : Nat
  status : Status
  createdBy : Nat
  submittedAt : Option Nat
  approvedBy : Option Nat
  approvedAt : Option Nat
  entryWindowStart : Option Nat
  entryWindowEnd : Option Nat
  entries : List QuarterlyIndicatorEntry
deriving DecidableEq, Repr

/-- models.py QuarterlyReport.quarter_date_range: the if/elif/else chain,
where every quarter value other than 1, 2, 3 takes the Q4 branch. -/
def QuarterlyReport.quarterDateRange (r : QuarterlyReport) : Nat × Nat :=
  if r.quarter = 1 then (dt r.year 1 1 0 0 0, dt r.year 3 31 23 59 59)
  else if r.quarter = 2 then (dt r.year 4 1 0 0 0, dt r.year 6 30 23 59 59)
  else if r.quarter = 3 then (dt r.year 7 1 0 0 0, dt r.year 9 30 23 59 59)
  else (dt r.year 10 1 0 0 0, dt r.year 12 31 23 59 59)

/-- models.py QuarterlyReport.default_entry_window: starts at the quarter
end instant and runs 15 days. -/
def QuarterlyReport.defaultEntryWindow (r : QuarterlyReport) : Nat × Nat :=
  let qend := r.quarterDateRange.2
  (qend, qend + days 15)

/-- models.py QuarterlyReport.is_within_entry_window, same shape as the
annual one. -/
def QuarterlyReport.isWithinEntryWindow (r : QuarterlyReport) (when : Nat) : Bool :=
  let window :=
    match r.entryWindowStart, r.entryWindowEnd with
    | some s, some e => (s, e)
    | _, _ => r.defaultEntryWindow
  decide (window.1 ≤ when) && decide (when ≤ window.2)

/-- WorkflowAudit row as the annual-plan views build it through
log_workflow_action (views/base.py), with foreign keys as ids. -/
structure WorkflowAudit where
  actor : Nat
  unit : Nat
  action : AuditAction
  contextPlan : Option Nat
  contextReport : Option Nat
  message : String
deriving DecidableEq, Repr

/-- views/base.py log_workflow_action: build the audit row to append. -/
def logWorkflowAction (user : AuthUser) (unit : Nat) (action : AuditAction)
    (contextPlan contextReport : Option Nat) (message : String) : WorkflowAudit :=
  { actor := user.id, unit := unit, action := action,
    contextPlan := contextPlan, contextReport := contextReport, message := message }

/-! ## Serializer save keyword collisions

DRF BaseSerializer.save merges the keyword arguments of the save call
into validated_data and hands the merged dict to the custom create
method.  AnnualPlanTargetSerializer.create then calls
AnnualPlanTarget.objects.create(indicator=indicator, **validated_data)
and QuarterlyIndicatorEntrySerializer.create calls
QuarterlyIndicatorEntry.objects.create(indicator=indicator,
updated_by=updated_by, **validated_data): whenever a keyword appears both
explicitly and inside the merged validated_data, Python raises TypeError
at the call, before any row is inserted.  The keyword lists below are
read off the source so the collision is checkable here. -/

/-- Keywords AnnualPlanTargetSerializer.create passes explicitly to
objects.create besides the validated_data expansion (serializers.py
lines 150 to 157). -/
def targetCreateExplicitKwargs : List String := ["indicator"]

/-- Keywords QuarterlyIndicatorEntrySerializer.create passes explicitly
to objects.create besides the validated_data expansion (serializers.py
lines 268 to 279). -/
def entryCreateExplicitKwargs : List String := ["indicator", "updated_by"]

/-- Keywords the serializer.save call of AnnualPlanViewSet.add_target
merges into validated_data: save(plan=plan, indicator=indicator)
(annual_plans.py line 183). -/
def addTargetSaveKwargs : List String := ["plan", "indicator"]

/-- Keywords the serializer.save call of
AnnualPlanTargetViewSet.perform_create merges into validated_data:
save(plan=plan) (annual_plans.py line 317). -/
def targetPerformCreateSaveKwargs : List String := ["plan"]

/-- Keywords the serializer.save call of QuarterlyReportViewSet.add_entry
merges into validated_data: save(report=report, indicator=indicator,
updated_by=request.user) (quarterly_reports.py line 190). -/
def addEntrySaveKwargs : List String := ["report", "indicator", "updated_by"]

/-- True when a keyword reaches the model constructor both explicitly and
through the merged validated_data, which raises TypeError at the call. -/
def serializerSaveCollides (explicitKwargs saveKwargs : List String) : Bool :=
  explicitKwargs.any (fun k => saveKwargs.contains k)

/-! ## AnnualPlan workflow endpoints (src/plans/views/annual_plans.py) -/

/-- Result of an endpoint acting on one plan: the response, the plan row
after the request, and the audit rows the request appended. -/
structure PlanOpResult where
  resp : Resp Unit
  plan : AnnualPlan
  newAudits : List WorkflowAudit
deriving DecidableEq, Repr

namespace AnnualPlanViewSet

/-- AnnualPlanViewSet.submit (annual_plans.py lines 68 to 94): permission
check, then DRAFT check, then non-empty targets check; on success set
status to SUBMITTED and submitted_at to now, then write one SUBMIT audit
row. -/
def submit (user : AuthUser) (now : Nat) (plan : AnnualPlan) : PlanOpResult :=
  if canUserAccessUnit user plan.unit = false then
    { resp := .err .permissionDenied, plan := plan, newAudits := [] }
  else if plan.status ≠ Status.DRAFT then
    { resp := .err .invalidState, plan := plan, newAudits := [] }
  else if plan.targets.isEmpty then
    { resp := .err .emptyEntity, plan := plan, newAudits := [] }
  else
    let plan2 := { plan with status := Status.SUBMITTED, submittedAt := some now }
    { resp := .ok (), plan := plan2,
      newAudits := [logWorkflowAction user plan2.unit .SUBMIT (some plan2.id) none
        ("Submitted annual plan for " ++ toString plan2.year)] }

/-- AnnualPlanViewSet.approve (annual_plans.py lines 96 to 124): permission
check, then the approver-role check on profile.role (the view dereferences
profile.role, but can_user_access_unit already returned False for a None
profile, so the dereference is reached only with a profile present), then
the SUBMITTED check; on success set status, approved_by, approved_at and
write one APPROVE audit row. -/
def approve (user : AuthUser) (now : Nat) (plan : AnnualPlan) : PlanOpResult :=
  if canUserAccessUnit user plan.unit = false then
    { resp := .err .permissionDenied, plan := plan, newAudits := [] }
  else
    match getUserProfile user with
    | none => { resp := .crash, plan := plan, newAudits := [] }
    | some profile =>
      if roleCanApprove profile.role = false then
        { resp := .err .permissionDenied, plan := plan, newAudits := [] }
      else if plan.status ≠ Status.SUBMITTED then
        { resp := .err .invalidState, plan := plan, newAudits := [] }
      else
        let plan2 := { plan with
          status := Status.APPROVED, approvedBy := some user.id, approvedAt := some now }
        { resp := .ok (), plan := plan2,
          newAudits := [logWorkflowAction user plan2.unit .APPROVE (some plan2.id) none
            ("Approved annual plan for " ++ toString plan2.year)] }

/-- AnnualPlanViewSet.reject (annual_plans.py lines 126 to 152): same
guards as approve; on success only the status changes to REJECTED and one
REJECT audit row is written. -/
def reject (user : AuthUser) (plan : AnnualPlan) : PlanOpResult :=
  if canUserAccessUnit user plan.unit = false then
    { resp := .err .permissionDenied, plan := plan, newAudits := [] }
  else
    match getUserProfile user with
    | none => { resp := .crash, plan := plan, newAudits := [] }
    | some profile =>
      if roleCanApprove profile.role = false then
        { resp := .err .permissionDenied, plan := plan, newAudits := [] }
      else if plan.status ≠ Status.SUBMITTED then
        { resp := .err .invalidState, plan := plan, newAudits := [] }
      else
        let plan2 := { plan with status := Status.REJECTED }
        { resp := .ok (), plan := plan2,
          newAudits := [logWorkflowAction user plan2.unit .REJECT (some plan2.id) none
            ("Rejected annual plan for " ++ toString plan2.year)] }

/-- AnnualPlanViewSet.add_target (annual_plans.py lines 166 to 196):
permission check, DRAFT check, then the indicator is looked up by id AND
owner_unit equal to the plan's unit; a miss is the Invalid-indicator 400
rejection.  On a hit the view calls serializer.save(plan=plan,
indicator=indicator), whose merged kwargs duplicate the indicator keyword
that AnnualPlanTargetSerializer.create also passes explicitly: Python
raises TypeError at the objects.create call, before any row is inserted,
the exception escapes the view (500), and no target row and no audit row
exists afterwards.  The unreachable else branch mirrors the remaining
source lines (target insert, then one CREATE audit row).  The view
consults no entry window. -/
def addTarget (user : AuthUser) (indicators : List Indicator) (indicatorId : Nat)
    (targetValue : Int) (baselineValue : Option Int) (remarks : String)
    (plan : AnnualPlan) : PlanOpResult :=
  if canUserAccessUnit user plan.unit = false then
    { resp := .err .permissionDenied, plan := plan, newAudits := [] }
  else if plan.status ≠ Status.DRAFT then
    { resp := .err .invalidState, plan := plan, newAudits := [] }
  else
    match indicators.find? (fun i => decide (i.id = indicatorId) && decide (i.ownerUnit = plan.unit)) with
    | none => { resp := .err .invalidIndicator, plan := plan, newAudits := [] }
    | some ind =>
      if serializerSaveCollides targetCreateExplicitKwargs addTargetSaveKwargs then
        { resp := .crash, plan := plan, newAudits := [] }
      else
        let plan2 := { plan with targets := plan.targets ++
          [{ indicatorId := ind.id, targetValue := targetValue,
             baselineValue := baselineValue, remarks := remarks }] }
        { resp := .ok (), plan := plan2,
          newAudits := [logWorkflowAction user plan2.unit .CREATE (some plan2.id) none
            ("Added target for indicator " ++ ind.code)] }

/-- The mutation bulk_approve applies to one SUBMITTED plan. -/
def approvePlanRow (user : AuthUser) (now : Nat) (p : AnnualPlan) : AnnualPlan :=
  { p with status := Status.APPROVED, approvedBy := some user.id, approvedAt := some now }

/-- One iteration of the bulk_approve loop (annual_plans.py lines 213 to
230): look the id up, silently skip a missing id and a plan not in
SUBMITTED state, otherwise approve the row, append one APPROVE audit row
and increment the count.  The loop makes no per-plan access check. -/
def bulkApproveStep (user : AuthUser) (now : Nat) (reason : String)
    (st : List AnnualPlan × List WorkflowAudit × Nat) (planId : Nat) :
    List AnnualPlan × List WorkflowAudit × Nat :=
  let (db, audits, count) := st
  match db.find? (fun p => decide (p.id = planId)) with
  | none => (db, audits, count)
  | some p =>
    if p.status = Status.SUBMITTED then
      let p2 := approvePlanRow user now p
      (db.map (fun q => if q.id = planId then p2 else q),
       audits ++ [logWorkflowAction user p.unit .APPROVE (some p.id) none
         ("Bulk approved: " ++ reason)],
       count + 1)
    else (db, audits, count)

/-- AnnualPlanViewSet.bulk_approve (annual_plans.py lines 198 to 237):
profile.role is dereferenced before any None check (a user without a
profile crashes the view), the approver-role gate returns 403, the
serializer rejects an empty plan_ids list, then the loop above runs over
the ids inside one transaction and the response reports approved_count. -/
def bulkApprove (user : AuthUser) (now : Nat) (planIds : List Nat) (reason : String)
    (db : List AnnualPlan) (audits : List WorkflowAudit) :
    Resp (List AnnualPlan × List WorkflowAudit × Nat) :=
  match getUserProfile user with
  | none => .crash
  | some profile =>
    if roleCanApprove profile.role = false then .err .permissionDenied
    else if planIds.isEmpty then .err .validationError
    else .ok (planIds.foldl (bulkApproveStep user now reason) (db, audits, 0))

/-- AnnualPlanViewSet.get_queryset (annual_plans.py lines 23 to 33):
profile.role is dereferenced with no None check, so an authenticated user
without a profile row crashes the view with an AttributeError instead of
receiving a rejection (the profile gate in BaseViewSet.dispatch is
commented out). -/
def getQueryset (user : AuthUser) (yearParam : Option Nat) (nowYear : Nat)
    (db : List AnnualPlan) : Resp (List AnnualPlan) :=
  match getUserProfile user with
  | none => .crash
  | some profile =>
    let year := yearParam.getD nowYear
    let queryset := db.filter (fun p => decide (p.year = year))
    if profile.role = Role.SUPERADMIN then .ok queryset
    else .ok (queryset.filter (fun p => decide (p.unit = profile.unit)))

end AnnualPlanViewSet

/-! ## AnnualPlanTarget endpoints (src/plans/views/annual_plans.py,
AnnualPlanTargetViewSet) -/

namespace AnnualPlanTargetViewSet

/-- AnnualPlanTargetViewSet.perform_create (annual_plans.py lines 303 to
327).  The hook returns Response objects from its guard branches
(missing plan_id, plan not found, permission, non-DRAFT), but DRF
CreateModelMixin.create discards the return value of perform_create and
answers 201 Created from serializer.data, so each guard failure is a
silent success with nothing saved: the model returns ok with the table
unchanged and no audit row.  On the main path serializer.save(plan=plan)
has no keyword collision (only the plan keyword is merged in) and
AnnualPlanTargetSerializer.create resolves the indicator by id ALONE
(Indicator.objects.get with no owner-unit filter; a missing id raises an
uncaught DoesNotExist).  The target row is created for whatever unit owns
the indicator, and one CREATE audit row is written. -/
def performCreate (user : AuthUser) (indicators : List Indicator)
    (planIdParam : Option Nat) (indicatorId : Nat) (targetValue : Int)
    (baselineValue : Option Int) (remarks : String) (db : List AnnualPlan) :
    Resp Unit × List AnnualPlan × List WorkflowAudit :=
  match planIdParam with
  | none => (.ok (), db, [])
  | some planId =>
    match db.find? (fun p => decide (p.id = planId)) with
    | none => (.ok (), db, [])
    | some plan =>
      if canUserAccessUnit user plan.unit = false then (.ok (), db, [])
      else if plan.status ≠ Status.DRAFT then (.ok (), db, [])
      else
        match indicators.find? (fun i => decide (i.id = indicatorId)) with
        | none => (.crash, db, [])
        | some ind =>
          let plan2 := { plan with targets := plan.targets ++
            [{ indicatorId := ind.id, targetValue := targetValue,
               baselineValue := baselineValue, remarks := remarks }] }
          (.ok (), db.map (fun q => if q.id = planId then plan2 else q),
           [logWorkflowAction user plan.unit .CREATE (some plan.id) none
             ("Added target for indicator " ++ ind.code)])

/-- AnnualPlanTargetViewSet.perform_update (annual_plans.py lines 329 to
347).  The permission and DRAFT guards return Response objects, but DRF
UpdateModelMixin.update discards the return value of perform_update and
answers 200 with serializer.data, so a guard failure is a silent success
with nothing saved (ok, plan unchanged, no audit row).  When both guards
pass, the target is saved and one UPDATE audit row is written.  No
entry-window check runs anywhere in the method. -/
def performUpdate (user : AuthUser) (plan : AnnualPlan) (indicatorId : Nat)
    (targetValue : Int) (baselineValue : Option Int) (remarks : String) : PlanOpResult :=
  if canUserAccessUnit user plan.unit = false then
    { resp := .ok (), plan := plan, newAudits := [] }
  else if plan.status ≠ Status.DRAFT then
    { resp := .ok (), plan := plan, newAudits := [] }
  else
    let plan2 := { plan with targets := plan.targets.map (fun t =>
      if t.indicatorId = indicatorId then
        { t with targetValue := targetValue, baselineValue := baselineValue,
                 remarks := remarks }
      else t) }
    { resp := .ok (), plan := plan2,
      newAudits := [logWorkflowAction user plan.unit .UPDATE (some plan.id) none
        ("Updated target for indicator " ++ toString indicatorId)] }

/-- AnnualPlanTargetViewSet.perform_destroy (annual_plans.py lines 349 to
366).  The permission and DRAFT guards return Response objects, but DRF
DestroyModelMixin.destroy discards the return value of perform_destroy
and answers 204 No Content, so a guard failure is a silent success with
nothing deleted (ok, plan unchanged, no audit row).  When both guards
pass, a DELETE audit row is written and the target deleted.  No
entry-window check runs anywhere in the method. -/
def performDestroy (user : AuthUser) (plan : AnnualPlan) (indicatorId : Nat) : PlanOpResult :=
  if canUserAccessUnit user plan.unit = false then
    { resp := .ok (), plan := plan, newAudits := [] }
  else if plan.status ≠ Status.DRAFT then
    { resp := .ok (), plan := plan, newAudits := [] }
  else
    let plan2 := { plan with targets := plan.targets.filter (fun t =>
      decide (t.indicatorId ≠ indicatorId)) }
    { resp := .ok (), plan := plan2,
      newAudits := [logWorkflowAction user plan.unit .DELETE (some plan.id) none
        ("Deleted target for indicator " ++ toString indicatorId)] }

end AnnualPlanTargetViewSet

/-! ## QuarterlyReport endpoints (src/plans/views/quarterly_reports.py)

The quarterly viewset calls `self.log_action(request.user, report.unit,
TAG, ...)` while BaseViewSet.log_action is declared as
`log_action(self, unit, action, context_plan=None, context_report=None,
message="")`.  The extra leading `request.user` therefore shifts every
positional argument: `unit` receives the User object, `action` receives
the Unit object, and `context_plan` receives the action-tag string.
log_workflow_action then runs `WorkflowAudit.objects.create(...)`, and
Django's foreign-key descriptor raises ValueError when a non-Unit value
is assigned to WorkflowAudit.unit (and a non-AnnualPlan value to
context_plan), so the audit insert raises after the report row was
already saved.  To keep that argument shift visible, the values a call
site passes into log_action are modelled as a dynamically typed
`PyVal`. -/

/-- A dynamically typed Python value as it travels through log_action. -/
inductive PyVal where
  | pyUser (id : Nat)
  | pyUnit (id : Nat)
  | pyStr (s : String)
  | pyPlan (id : Nat)
  | pyReport (id : Nat)
  | pyNone
deriving DecidableEq, Repr

/-- The field values handed to `WorkflowAudit.objects.create`. -/
structure AuditCreateArgs where
  actor : PyVal
  unit : PyVal
  action : PyVal
  contextPlan : PyVal
  contextReport : PyVal
  message : PyVal
deriving DecidableEq, Repr

/-- Django model-field typing at `WorkflowAudit.objects.create`: the
foreign keys actor, unit, context_plan and context_report each raise a
ValueError unless they receive an instance of the related model (or None
for the two nullable context keys).  On success the created row is
returned with its foreign keys as ids; a CharField accepts the value as
given. -/
def workflowAuditCreate (args : AuditCreateArgs) : Except String WorkflowAudit :=
  match args.actor, args.unit, args.contextPlan, args.contextReport with
  | .pyUser actorId, .pyUnit unitId, .pyPlan planId, .pyReport reportId =>
    mkRow actorId unitId (some planId) (some reportId)
  | .pyUser actorId, .pyUnit unitId, .pyPlan planId, .pyNone =>
    mkRow actorId unitId (some planId) none
  | .pyUser actorId, .pyUnit unitId, .pyNone, .pyReport reportId =>
    mkRow actorId unitId none (some reportId)
  | .pyUser actorId, .pyUnit unitId, .pyNone, .pyNone =>
    mkRow actorId unitId none none
  | _, _, _, _ => .error "ValueError: foreign key assigned a wrong instance type"
where
  mkRow (actorId unitId : Nat) (planId reportId : Option Nat) : Except String WorkflowAudit :=
    match args.action, args.message with
    | .pyStr "CREATE", .pyStr m => .ok ⟨actorId, unitId, .CREATE, planId, reportId, m⟩
    | .pyStr "SUBMIT", .pyStr m => .ok ⟨actorId, unitId, .SUBMIT, planId, reportId, m⟩
    | .pyStr "APPROVE", .pyStr m => .ok ⟨actorId, unitId, .APPROVE, planId, reportId, m⟩
    | .pyStr "REJECT", .pyStr m => .ok ⟨actorId, unitId, .REJECT, planId, reportId, m⟩
    | .pyStr "IMPORT", .pyStr m => .ok ⟨actorId, unitId, .IMPORT, planId, reportId, m⟩
    | .pyStr "UPDATE", .pyStr m => .ok ⟨actorId, unitId, .UPDATE, planId, reportId, m⟩
    | .pyStr "DELETE", .pyStr m => .ok ⟨actorId, unitId, .DELETE, planId, reportId, m⟩
    | _, _ => .error "ValueError: action or message is not a workflow string"

/-- BaseViewSet.log_action forwarding into log_workflow_action with
self.request.user as the actor: the five declared parameters after self
are unit, action, context_plan, context_report, message. -/
def logActionDyn (requestUser : AuthUser) (unit action contextPlan contextReport message : PyVal) :
    Except String WorkflowAudit :=
  workflowAuditCreate
    { actor := .pyUser requestUser.id, unit := unit, action := action,
      contextPlan := contextPlan, contextReport := contextReport, message := message }

/-- Result of a quarterly endpoint: response, report row after the
request, and successfully inserted audit rows. -/
structure ReportOpResult where
  resp : Resp Unit
  report : QuarterlyReport
  newAudits : List WorkflowAudit
deriving DecidableEq, Repr

namespace QuarterlyReportViewSet

/-- The call `self.log_action(request.user, report.unit, "SUBMIT",
context_report=report, message=...)` of quarterly_reports.py lines 90 to
96, bound against log_action's declared parameters: the three positional
values land in unit, action and context_plan, in that order. -/
def submitLogCall (user : AuthUser) (report : QuarterlyReport) : Except String WorkflowAudit :=
  logActionDyn user
    (.pyUser user.id)
    (.pyUnit report.unit)
    (.pyStr "SUBMIT")
    (.pyReport report.id)
    (.pyStr ("Submitted quarterly report for Q" ++ toString report.quarter ++
      " " ++ toString report.year))

/-- QuarterlyReportViewSet.submit (quarterly_reports.py lines 72 to 99):
permission, DRAFT and non-empty-entries guards; then the report row is
saved with status SUBMITTED, and only afterwards the audit write runs.
When that write raises, the exception escapes the view while the saved
status mutation stays. -/
def submit (user : AuthUser) (now : Nat) (report : QuarterlyReport) : ReportOpResult :=
  if canUserAccessUnit user report.unit = false then
    { resp := .err .permissionDenied, report := report, newAudits := [] }
  else if report.status ≠ Status.DRAFT then
    { resp := .err .invalidState, report := report, newAudits := [] }
  else if report.entries.isEmpty then
    { resp := .err .emptyEntity, report := report, newAudits := [] }
  else
    let report2 := { report with status := Status.SUBMITTED, submittedAt := some now }
    match submitLogCall user report2 with
    | .ok row => { resp := .ok (), report := report2, newAudits := [row] }
    | .error _ => { resp := .crash, report := report2, newAudits := [] }

/-- The call `self.log_action(request.user, report.unit, "CREATE",
context_report=report, message=...)` of quarterly_reports.py lines 192 to
198, with the same positional shift. -/
def addEntryLogCall (user : AuthUser) (report : QuarterlyReport) (code : String) :
    Except String WorkflowAudit :=
  logActionDyn user
    (.pyUser user.id)
    (.pyUnit report.unit)
    (.pyStr "CREATE")
    (.pyReport report.id)
    (.pyStr ("Added entry for indicator " ++ code))

/-- QuarterlyReportViewSet.add_entry (quarterly_reports.py lines 173 to
204): permission and DRAFT guards (these Response returns of the action
method itself ARE the HTTP response), then the indicator lookup filtered
by id and the report's unit (a miss is the Invalid-indicator rejection).
On a hit the view calls serializer.save(report=report,
indicator=indicator, updated_by=request.user); the merged kwargs
duplicate both the indicator and updated_by keywords that
QuarterlyIndicatorEntrySerializer.create passes explicitly, so Python
raises TypeError at the objects.create call, BEFORE any entry row is
inserted: the request crashes (500) with the entries collection
unchanged and no audit row.  The unreachable else branch mirrors the
remaining source lines (entry insert, then the audit call with the
shifted arguments, which would itself raise).  No entry-window check
runs. -/
def addEntry (user : AuthUser) (indicators : List Indicator) (indicatorId : Nat)
    (achievedValue : Int) (remarks : String) (report : QuarterlyReport) : ReportOpResult :=
  if canUserAccessUnit user report.unit = false then
    { resp := .err .permissionDenied, report := report, newAudits := [] }
  else if report.status ≠ Status.DRAFT then
    { resp := .err .invalidState, report := report, newAudits := [] }
  else
    match indicators.find? (fun i => decide (i.id = indicatorId) && decide (i.ownerUnit = report.unit)) with
    | none => { resp := .err .invalidIndicator, report := report, newAudits := [] }
    | some ind =>
      if serializerSaveCollides entryCreateExplicitKwargs addEntrySaveKwargs then
        { resp := .crash, report := report, newAudits := [] }
      else
        let report2 := { report with entries := report.entries ++
          [{ indicatorId := ind.id, achievedValue := achievedValue,
             remarks := remarks, updatedBy := user.id }] }
        match addEntryLogCall user report2 ind.code with
        | .ok row => { resp := .ok (), report := report2, newAudits := [row] }
        | .error _ => { resp := .crash, report := report2, newAudits := [] }

end QuarterlyReportViewSet

/-! ## Aggregation endpoints (src/plans/views/api.py and
src/plans/views/audit.py).  Python float division on the small
non-negative counts involved is exact, so the percentages are embedded
as rationals. -/

/-- The progress payload of api.py get_annual_plan_progress. -/
structure ProgressOut where
  totalTargets : Nat
  completedEntries : Nat
  completionPercentage : ℚ
deriving DecidableEq, Repr

/-- api.py get_annual_plan_progress (lines 31 to 54): 404 on a missing
plan, permission check, then total_targets counts the plan's targets,
completed_entries counts the quarterly entries of the plan's unit and
year, and the percentage is completed / total * 100 guarded to 0 when
total_targets is 0. -/
def getAnnualPlanProgress (user : AuthUser) (plans : List AnnualPlan)
    (reports : List QuarterlyReport) (planId : Nat) : Resp ProgressOut :=
  match plans.find? (fun p => decide (p.id = planId)) with
  | none => .err .notFound
  | some plan =>
    if canUserAccessUnit user plan.unit = false then .err .permissionDenied
    else
      let totalTargets := plan.targets.length
      let completedEntries :=
        ((reports.filter (fun r => decide (r.unit = plan.unit) && decide (r.year = plan.year))).map
          (fun r => r.entries.length)).sum
      .ok { totalTargets := totalTargets, completedEntries := completedEntries,
            completionPercentage :=
              if totalTargets > 0 then
                (completedEntries : ℚ) / (totalTargets : ℚ) * 100
              else 0 }

/-- The stats payload of audit.py AuditViewSet.performance_summary. -/
structure SummaryOut where
  totalPlans : Nat
  approvedPlans : Nat
  totalReports : Nat
  approvedReports : Nat
  planApprovalRate : ℚ
  reportApprovalRate : ℚ
deriving DecidableEq, Repr

namespace AuditViewSet

/-- audit.py AuditViewSet.performance_summary (lines 51 to 88):
profile.role is dereferenced with no None check (crash for a user without
a profile); accessible units are all units for SUPERADMIN and only the
profile's unit otherwise; the counts are filtered by year and accessible
unit, and each approval rate is approved / total * 100 guarded to 0 when
the total is 0. -/
def performanceSummary (user : AuthUser) (year : Nat) (plans : List AnnualPlan)
    (reports : List QuarterlyReport) : Resp SummaryOut :=
  match getUserProfile user with
  | none => .crash
  | some profile =>
    let unitOk : Nat → Bool := fun u =>
      if profile.role = Role.SUPERADMIN then true else decide (u = profile.unit)
    let annualPlans := plans.filter (fun p => decide (p.year = year) && unitOk p.unit)
    let quarterlyReports := reports.filter (fun r => decide (r.year = year) && unitOk r.unit)
    let totalPlans := annualPlans.length
    let approvedPlans := (annualPlans.filter (fun p => decide (p.status = Status.APPROVED))).length
    let totalReports := quarterlyReports.length
    let approvedReports := (quarterlyReports.filter (fun r => decide (r.status = Status.APPROVED))).length
    .ok { totalPlans := totalPlans, approvedPlans := approvedPlans,
          totalReports := totalReports, approvedReports := approvedReports,
          planApprovalRate :=
            if totalPlans > 0 then (approvedPlans : ℚ) / (totalPlans : ℚ) * 100 else 0,
          reportApprovalRate :=
            if totalReports > 0 then (approvedReports : ℚ) / (totalReports : ℚ) * 100 else 0 }

end AuditViewSet

/-! ## Definitions written from the claim wording (for refinement
comparisons only; everything above is translated from the source). -/

/-- Modelled from the claim wording of C7: the window bounds pair is the
explicitly stored pair when both fields are set, and otherwise both bounds
are recomputed from the default rule, which for an AnnualPlan is Jan 1
00:00 of its year through 30 days later. -/
def specAnnualWindow (p : AnnualPlan) : Nat × Nat :=
  if p.entryWindowStart.isSome && p.entryWindowEnd.isSome then
    (p.entryWindowStart.getD 0, p.entryWindowEnd.getD 0)
  else
    (dt p.year 1 1 0 0 0, dt p.year 1 1 0 0 0 + days 30)

/-- Modelled from the claim wording of C7: the quarter's last day at
23:59:59 for quarters one to four (Q1 ends Mar 31, Q2 Jun 30, Q3 Sep 30,
Q4 Dec 31). -/
def specQuarterEnd (year quarter : Nat) : Nat :=
  if quarter = 1 then dt year 3 31 23 59 59
  else if quarter = 2 then dt year 6 30 23 59 59
  else if quarter = 3 then dt year 9 30 23 59 59
  else dt year 12 31 23 59 59

/-- Modelled from the claim wording of C7: quarterly default window runs
from the quarter end through 15 days later, with the same both-or-neither
override rule. -/
def specQuarterlyWindow (r : QuarterlyReport) : Nat × Nat :=
  if r.entryWindowStart.isSome && r.entryWindowEnd.isSome then
    (r.entryWindowStart.getD 0, r.entryWindowEnd.getD 0)
  else
    (specQuarterEnd r.year r.quarter, specQuarterEnd r.year r.quarter + days 15)

/-- Modelled from the claim wording of C7: membership, inclusive at both
ends, of the instant in the window. -/
def specWithinWindow (window : Nat × Nat) (now : Nat) : Bool :=
  decide (window.1 ≤ now ∧ now ≤ window.2)

/-- Modelled from the claim wording of C3: the plan a bulk approve leaves
behind for each row, when the listed set of ids is `ids` and the row
transitions exactly when listed and currently SUBMITTED. -/
def specBulkMark (user : AuthUser) (now : Nat) (ids : List Nat) (p : AnnualPlan) : AnnualPlan :=
  if p.id ∈ ids ∧ p.status = Status.SUBMITTED then
    AnnualPlanViewSet.approvePlanRow user now p
  else p

/-- Modelled from the claim wording of C3: the number of listed ids whose
plan exists and is currently SUBMITTED. -/
def specBulkCount (ids : List Nat) (db : List AnnualPlan) : Nat :=
  ids.countP (fun i =>
    match db.find? (fun p => decide (p.id = i)) with
    | some p => decide (p.status = Status.SUBMITTED)
    | none => false)

/-! ## Concrete rows used by witnesses and counterexamples -/

/-- An advisor whose home unit is unit 1. -/
def advisorUser : AuthUser := { id := 10, isAnonymous := false, profile := some { role := .ADVISOR, unit := 1 } }

/-- A strategic-affairs approver whose home unit is unit 1. -/
def approverUser : AuthUser := { id := 11, isAnonymous := false, profile := some { role := .STRATEGIC_AFFAIRS, unit := 1 } }

/-- An authenticated user with no profile row. -/
def noProfileUser : AuthUser := { id := 12, isAnonymous := false, profile := none }

/-- An indicator owned by unit 1. -/
def indicatorU1 : Indicator := { id := 7, code := "IND-7", ownerUnit := 1, active := true }

/-- An indicator owned by unit 2. -/
def indicatorU2 : Indicator := { id := 8, code := "IND-8", ownerUnit := 2, active := true }

/-- One target row for indicator 7. -/
def sampleTarget : AnnualPlanTarget := { indicatorId := 7, targetValue := 100, baselineValue := none, remarks := "" }

/-- A 2025 DRAFT plan of unit 1, one target and no explicit window. -/
def draftPlan : AnnualPlan :=
  { id := 1, year := 2025, unit := 1, status := .DRAFT, createdBy := 10,
    submittedAt := none, approvedBy := none, approvedAt := none,
    entryWindowStart := none, entryWindowEnd := none, targets := [sampleTarget] }

/-- A SUBMITTED 2025 plan owned by unit 2, a unit the approver above
cannot access. -/
def submittedPlanU2 : AnnualPlan :=
  { id := 5, year := 2025, unit := 2, status := .SUBMITTED, createdBy := 20,
    submittedAt := some 1, approvedBy := none, approvedAt := none,
    entryWindowStart := none, entryWindowEnd := none,
    targets := [{ indicatorId := 8, targetValue := 10, baselineValue := none, remarks := "" }] }

/-- One achieved-value entry row for indicator 7. -/
def sampleEntry : QuarterlyIndicatorEntry := { indicatorId := 7, achievedValue := 50, remarks := "", updatedBy := 10 }

/-- A 2025 Q1 DRAFT report of unit 1, one entry and no explicit window. -/
def draftReportQ1 : QuarterlyReport :=
  { id := 3, year := 2025, quarter := 1, unit := 1, status := .DRAFT, createdBy := 10,
    submittedAt := none, approvedBy := none, approvedAt := none,
    entryWindowStart := none, entryWindowEnd := none, entries := [sampleEntry] }

end Plans

namespace Plans

/-! # Theorems -/

/-- Claim C6: for every AnnualPlan and acting user, submit succeeds iff
the plan is DRAFT, has at least one target, and the user passes
can_user_access_unit; after success the status is SUBMITTED, submitted_at
is set, and exactly one SUBMIT audit row for the plan is written; each
failure returns the distinct rejection of its failed guard
(PermissionDenied, InvalidState, EmptyEntity) and leaves the plan
unchanged with no audit row. -/
theorem C6_annual_submit_correct (user : AuthUser) (now : Nat) (plan : AnnualPlan) :
    ((AnnualPlanViewSet.submit user now plan).resp = .ok () ↔
      (plan.status = Status.DRAFT ∧ plan.targets ≠ [] ∧
        canUserAccessUnit user plan.unit = true)) ∧
    ((AnnualPlanViewSet.submit user now plan).resp = .ok () →
      (AnnualPlanViewSet.submit user now plan).plan.status = Status.SUBMITTED ∧
      (AnnualPlanViewSet.submit user now plan).plan.submittedAt = some now ∧
      ∃ row, (AnnualPlanViewSet.submit user now plan).newAudits = [row] ∧
        row.action = .SUBMIT ∧ row.contextPlan = some plan.id ∧ row.actor = user.id) ∧
    (canUserAccessUnit user plan.unit = false →
      (AnnualPlanViewSet.submit user now plan) =
        { resp := .err .permissionDenied, plan := plan, newAudits := [] }) ∧
    (canUserAccessUnit user plan.unit = true → plan.status ≠ Status.DRAFT →
      (AnnualPlanViewSet.submit user now plan) =
        { resp := .err .invalidState, plan := plan, newAudits := [] }) ∧
    (canUserAccessUnit user plan.unit = true → plan.status = Status.DRAFT →
      plan.targets = [] →
      (AnnualPlanViewSet.submit user now plan) =
        { resp := .err .emptyEntity, plan := plan, newAudits := [] }) := by
  by_cases hacc : canUserAccessUnit user plan.unit = false
  · simp [AnnualPlanViewSet.submit, hacc]
  · rw [Bool.not_eq_false] at hacc
    by_cases hst : plan.status = Status.DRAFT
    · by_cases ht : plan.targets = []
      · simp [AnnualPlanViewSet.submit, hacc, hst, ht]
      · simp [AnnualPlanViewSet.submit, hacc, hst, ht, List.isEmpty_iff, logWorkflowAction]
    · simp [AnnualPlanViewSet.submit, hacc, hst]

/-- Claim C6 witness: the concrete draft plan with one target submits
successfully for its unit's advisor. -/
theorem C6_annual_submit_correct_witness :
    (AnnualPlanViewSet.submit advisorUser 5 draftPlan).resp = .ok () :=
  (C6_annual_submit_correct advisorUser 5 draftPlan).1.mpr (by decide)

/-- Claim C8: once approve succeeds on a plan, a second approve call by
the same actor fails with InvalidState, leaves status, approved_by and
approved_at unchanged, and writes no second audit row. -/
theorem C8_approve_second_call_rejected (user : AuthUser) (now now2 : Nat)
    (plan : AnnualPlan)
    (hok : (AnnualPlanViewSet.approve user now plan).resp = .ok ()) :
    AnnualPlanViewSet.approve user now2 (AnnualPlanViewSet.approve user now plan).plan =
      { resp := .err .invalidState,
        plan := (AnnualPlanViewSet.approve user now plan).plan, newAudits := [] } := by
  by_cases hacc : canUserAccessUnit user plan.unit = false
  · simp [AnnualPlanViewSet.approve, hacc] at hok
  · rw [Bool.not_eq_false] at hacc
    cases hp : getUserProfile user with
    | none => simp [AnnualPlanViewSet.approve, hacc, hp] at hok
    | some profile =>
      by_cases hrole : roleCanApprove profile.role = false
      · simp [AnnualPlanViewSet.approve, hacc, hp, hrole] at hok
      · rw [Bool.not_eq_false] at hrole
        by_cases hst : plan.status = Status.SUBMITTED
        · simp [AnnualPlanViewSet.approve, hacc, hp, hrole, hst]
        · simp [AnnualPlanViewSet.approve, hacc, hp, hrole, hst] at hok

/-- Claim C8 witness: approving the concrete submitted plan of unit 1 by
the strategic-affairs approver, twice. -/
theorem C8_approve_second_call_rejected_witness :
    AnnualPlanViewSet.approve approverUser 9
        (AnnualPlanViewSet.approve approverUser 8 { draftPlan with status := .SUBMITTED }).plan =
      { resp := .err .invalidState,
        plan := (AnnualPlanViewSet.approve approverUser 8 { draftPlan with status := .SUBMITTED }).plan,
        newAudits := [] } :=
  C8_approve_second_call_rejected approverUser 8 9 { draftPlan with status := .SUBMITTED } (by decide)

/-- Claim C10: submit never consults the entry window: a DRAFT plan with
targets submits successfully for an authorized actor even at an instant
outside its entry window. -/
theorem C10_submit_ignores_entry_window (user : AuthUser) (now : Nat) (plan : AnnualPlan)
    (hacc : canUserAccessUnit user plan.unit = true)
    (hst : plan.status = Status.DRAFT)
    (ht : plan.targets ≠ [])
    (_hwin : plan.isWithinEntryWindow now = false) :
    (AnnualPlanViewSet.submit user now plan).resp = .ok () ∧
    (AnnualPlanViewSet.submit user now plan).plan.status = Status.SUBMITTED := by
  simp [AnnualPlanViewSet.submit, hacc, hst, ht, List.isEmpty_iff]

/-- Claim C10 witness: the concrete 2025 draft plan submitted on June 1,
2025, far outside its default January window. -/
theorem C10_submit_ignores_entry_window_witness :
    (AnnualPlanViewSet.submit advisorUser (dt 2025 6 1 0 0 0) draftPlan).resp = .ok () ∧
    (AnnualPlanViewSet.submit advisorUser (dt 2025 6 1 0 0 0) draftPlan).plan.status = Status.SUBMITTED :=
  C10_submit_ignores_entry_window advisorUser (dt 2025 6 1 0 0 0) draftPlan
    (by decide) (by decide) (by decide) (by decide)

/-- Claim C7: both is_within_entry_window implementations test
start <= now <= end inclusively, against the stored pair when both fields
are set and otherwise against both default bounds (Jan 1 through 30 days
later for an annual plan; quarter end 23:59:59 through 15 days later for
a quarterly report); hence the 2025 plan with no explicit window is
editable on Jan 15 but not Feb 15, and the 2025 Q1 report on Apr 10 but
not May 1. -/
theorem C7_entry_window_matches_spec :
    (∀ (p : AnnualPlan) (now : Nat),
        p.isWithinEntryWindow now = specWithinWindow (specAnnualWindow p) now) ∧
    (∀ (r : QuarterlyReport) (now : Nat), 1 ≤ r.quarter → r.quarter ≤ 4 →
        r.isWithinEntryWindow now = specWithinWindow (specQuarterlyWindow r) now) ∧
    draftPlan.isWithinEntryWindow (dt 2025 1 15 0 0 0) = true ∧
    draftPlan.isWithinEntryWindow (dt 2025 2 15 0 0 0) = false ∧
    draftReportQ1.isWithinEntryWindow (dt 2025 4 10 0 0 0) = true ∧
    draftReportQ1.isWithinEntryWindow (dt 2025 5 1 0 0 0) = false := by
  refine ⟨?_, ?_, by decide, by decide, by decide, by decide⟩
  · intro p now
    cases hs : p.entryWindowStart with
    | none =>
      simp [AnnualPlan.isWithinEntryWindow, specWithinWindow, specAnnualWindow,
        AnnualPlan.defaultEntryWindow, hs, Bool.decide_and]
    | some s =>
      cases he : p.entryWindowEnd with
      | none =>
        simp [AnnualPlan.isWithinEntryWindow, specWithinWindow, specAnnualWindow,
          AnnualPlan.defaultEntryWindow, hs, he, Bool.decide_and]
      | some e =>
        simp [AnnualPlan.isWithinEntryWindow, specWithinWindow, specAnnualWindow, hs, he,
          Bool.decide_and]
  · intro r now h1 h4
    have hq : r.quarter = 1 ∨ r.quarter = 2 ∨ r.quarter = 3 ∨ r.quarter = 4 := by omega
    cases hs : r.entryWindowStart with
    | none =>
      rcases hq with hq | hq | hq | hq <;>
        simp [QuarterlyReport.isWithinEntryWindow, specWithinWindow, specQuarterlyWindow,
          QuarterlyReport.defaultEntryWindow, QuarterlyReport.quarterDateRange,
          specQuarterEnd, hs, hq, Bool.decide_and]
    | some s =>
      cases he : r.entryWindowEnd with
      | none =>
        rcases hq with hq | hq | hq | hq <;>
          simp [QuarterlyReport.isWithinEntryWindow, specWithinWindow, specQuarterlyWindow,
            QuarterlyReport.defaultEntryWindow, QuarterlyReport.quarterDateRange,
            specQuarterEnd, hs, he, hq, Bool.decide_and]
      | some e =>
        simp [QuarterlyReport.isWithinEntryWindow, specWithinWindow, specQuarterlyWindow,
          hs, he, Bool.decide_and]

/-- Claim C7 witness: the quarterly half of the claim at the concrete Q1
report and April 10, 2025. -/
theorem C7_entry_window_matches_spec_witness :
    draftReportQ1.isWithinEntryWindow (dt 2025 4 10 0 0 0) =
      specWithinWindow (specQuarterlyWindow draftReportQ1) (dt 2025 4 10 0 0 0) :=
  C7_entry_window_matches_spec.2.1 draftReportQ1 (dt 2025 4 10 0 0 0)
    (by decide) (by decide)

/-- A 2025 plan of unit 1 carrying four targets, for the completion
percentage example. -/
def planFourTargets : AnnualPlan :=
  { draftPlan with targets := [
      { indicatorId := 1, targetValue := 1, baselineValue := none, remarks := "" },
      { indicatorId := 2, targetValue := 1, baselineValue := none, remarks := "" },
      { indicatorId := 3, targetValue := 1, baselineValue := none, remarks := "" },
      { indicatorId := 4, targetValue := 1, baselineValue := none, remarks := "" }] }

/-- A 2025 Q1 report of unit 1 carrying three entries. -/
def reportThreeEntries : QuarterlyReport :=
  { draftReportQ1 with entries := [
      { indicatorId := 1, achievedValue := 1, remarks := "", updatedBy := 10 },
      { indicatorId := 2, achievedValue := 1, remarks := "", updatedBy := 10 },
      { indicatorId := 3, achievedValue := 1, remarks := "", updatedBy := 10 }] }

/-- Claim C9: every aggregation result guards its divisions: the
completion percentage is completed_entries / total_targets * 100 and each
approval rate is approved / total * 100, both returned as 0 when the
denominator is 0 instead of a division error; four targets with three
entries yield exactly 75. -/
theorem C9_aggregation_division_guarded :
    (∀ (user : AuthUser) (plans : List AnnualPlan) (reports : List QuarterlyReport)
        (planId : Nat) (out : ProgressOut),
      getAnnualPlanProgress user plans reports planId = .ok out →
        (out.totalTargets = 0 → out.completionPercentage = 0) ∧
        (0 < out.totalTargets → out.completionPercentage =
          (out.completedEntries : ℚ) / (out.totalTargets : ℚ) * 100)) ∧
    (∀ (user : AuthUser) (year : Nat) (plans : List AnnualPlan)
        (reports : List QuarterlyReport) (out : SummaryOut),
      AuditViewSet.performanceSummary user year plans reports = .ok out →
        (out.totalPlans = 0 → out.planApprovalRate = 0) ∧
        (0 < out.totalPlans → out.planApprovalRate =
          (out.approvedPlans : ℚ) / (out.totalPlans : ℚ) * 100) ∧
        (out.totalReports = 0 → out.reportApprovalRate = 0) ∧
        (0 < out.totalReports → out.reportApprovalRate =
          (out.approvedReports : ℚ) / (out.totalReports : ℚ) * 100)) ∧
    (getAnnualPlanProgress advisorUser [planFourTargets] [reportThreeEntries]
        planFourTargets.id =
      .ok { totalTargets := 4, completedEntries := 3, completionPercentage := 75 }) ∧
    (getAnnualPlanProgress advisorUser [{ planFourTargets with targets := [] }]
        [reportThreeEntries] planFourTargets.id =
      .ok { totalTargets := 0, completedEntries := 3, completionPercentage := 0 }) := by
  refine ⟨?_, ?_, ?_, ?_⟩
  · intro user plans reports planId out h
    unfold getAnnualPlanProgress at h
    cases hfind : plans.find? (fun p => decide (p.id = planId)) with
    | none => rw [hfind] at h; exact Resp.noConfusion h
    | some plan =>
      rw [hfind] at h
      dsimp only at h
      by_cases hacc : canUserAccessUnit user plan.unit = false
      · rw [if_pos hacc] at h; exact Resp.noConfusion h
      · rw [if_neg hacc] at h
        injection h with h
        subst h
        refine ⟨fun h0 => ?_, fun h0 => ?_⟩ <;> dsimp only at h0 ⊢
        · rw [h0, if_neg (Nat.lt_irrefl 0)]
        · rw [if_pos h0]
  · intro user year plans reports out h
    unfold AuditViewSet.performanceSummary at h
    cases hp : getUserProfile user with
    | none => rw [hp] at h; exact Resp.noConfusion h
    | some profile =>
      rw [hp] at h
      dsimp only at h
      injection h with h
      subst h
      refine ⟨fun h0 => ?_, fun h0 => ?_, fun h0 => ?_, fun h0 => ?_⟩ <;> dsimp only at h0 ⊢
      · rw [h0, if_neg (Nat.lt_irrefl 0)]
      · rw [if_pos h0]
      · rw [h0, if_neg (Nat.lt_irrefl 0)]
      · rw [if_pos h0]
  · unfold getAnnualPlanProgress
    norm_num [planFourTargets, reportThreeEntries, draftPlan, draftReportQ1,
      advisorUser, canUserAccessUnit, getUserProfile, List.find?, List.filter]
  · unfold getAnnualPlanProgress
    norm_num [planFourTargets, reportThreeEntries, draftPlan, draftReportQ1,
      advisorUser, canUserAccessUnit, getUserProfile, List.find?, List.filter]

/-- Claim C9 witness: the progress half of the claim at the concrete
four-target plan. -/
theorem C9_aggregation_division_guarded_witness :
    (getAnnualPlanProgress advisorUser [planFourTargets] [reportThreeEntries]
        planFourTargets.id =
      .ok { totalTargets := 4, completedEntries := 3, completionPercentage := 75 }) ∧
    ({ totalTargets := 4, completedEntries := 3, completionPercentage := (75 : ℚ) : ProgressOut }.totalTargets = 0 →
      ({ totalTargets := 4, completedEntries := 3, completionPercentage := (75 : ℚ) : ProgressOut }.completionPercentage = 0)) :=
  ⟨C9_aggregation_division_guarded.2.2.1,
   (C9_aggregation_division_guarded.1 advisorUser [planFourTargets] [reportThreeEntries]
      planFourTargets.id _ C9_aggregation_division_guarded.2.2.1).1⟩

/-- Claim C2 counterexample: on June 1, 2025 the 2025 draft plan is
outside its default entry window, yet the target-update endpoint answers
success and changes the target value (no WindowClosed rejection exists
anywhere in the code); and on a SUBMITTED plan the same endpoint answers
success with nothing saved instead of the claimed InvalidState
rejection, because DRF discards the Response that perform_update
returns. -/
theorem C2_draft_edit_counterexample :
    draftPlan.status = Status.DRAFT ∧
    draftPlan.isWithinEntryWindow (dt 2025 6 1 0 0 0) = false ∧
    (AnnualPlanTargetViewSet.performUpdate advisorUser draftPlan 7 200 none "").resp =
      .ok () ∧
    (AnnualPlanTargetViewSet.performUpdate advisorUser draftPlan 7 200 none "").plan.targets =
      [{ indicatorId := 7, targetValue := 200, baselineValue := none, remarks := "" }] ∧
    (AnnualPlanTargetViewSet.performUpdate advisorUser
        { draftPlan with status := .SUBMITTED } 7 200 none "" =
      { resp := .ok (), plan := { draftPlan with status := .SUBMITTED },
        newAudits := [] }) := by
  decide

/-- Claim C2 amended: no child-edit path consults is_within_entry_window
and no WindowClosed rejection exists.  Outside DRAFT, the add_target and
add_entry action endpoints reject with InvalidState leaving the
collection unchanged, while perform_create, perform_update and
perform_destroy answer success statuses with nothing saved (DRF discards
the Responses those hooks return).  Within DRAFT, updating or deleting a
target and the direct perform_create insertion all succeed at any
instant, window open or closed; the add_target and add_entry action
endpoints instead crash with an uncaught TypeError inside
serializer.save (the merged save kwargs duplicate keywords of the custom
create), creating no row and no audit row, window likewise never
consulted. -/
theorem C2_amended_edit_paths :
    (∀ (user : AuthUser) (inds : List Indicator) (iid : Nat) (tv : Int)
        (bv : Option Int) (rem : String) (plan : AnnualPlan),
      canUserAccessUnit user plan.unit = true → plan.status ≠ Status.DRAFT →
        AnnualPlanViewSet.addTarget user inds iid tv bv rem plan =
          { resp := .err .invalidState, plan := plan, newAudits := [] }) ∧
    (∀ (user : AuthUser) (inds : List Indicator) (iid : Nat) (av : Int) (rem : String)
        (report : QuarterlyReport),
      canUserAccessUnit user report.unit = true → report.status ≠ Status.DRAFT →
        QuarterlyReportViewSet.addEntry user inds iid av rem report =
          { resp := .err .invalidState, report := report, newAudits := [] }) ∧
    (∀ (user : AuthUser) (iid : Nat) (tv : Int) (bv : Option Int) (rem : String)
        (plan : AnnualPlan),
      canUserAccessUnit user plan.unit = true → plan.status ≠ Status.DRAFT →
        AnnualPlanTargetViewSet.performUpdate user plan iid tv bv rem =
          { resp := .ok (), plan := plan, newAudits := [] }) ∧
    (∀ (user : AuthUser) (iid : Nat) (plan : AnnualPlan),
      canUserAccessUnit user plan.unit = true → plan.status ≠ Status.DRAFT →
        AnnualPlanTargetViewSet.performDestroy user plan iid =
          { resp := .ok (), plan := plan, newAudits := [] }) ∧
    (∀ (user : AuthUser) (inds : List Indicator) (planId iid : Nat) (tv : Int)
        (bv : Option Int) (rem : String) (db : List AnnualPlan) (plan : AnnualPlan),
      db.find? (fun p => decide (p.id = planId)) = some plan →
      canUserAccessUnit user plan.unit = true → plan.status ≠ Status.DRAFT →
        AnnualPlanTargetViewSet.performCreate user inds (some planId) iid tv bv rem db =
          (.ok (), db, [])) ∧
    (∀ (user : AuthUser) (iid : Nat) (tv : Int) (bv : Option Int) (rem : String)
        (plan : AnnualPlan) (now : Nat),
      canUserAccessUnit user plan.unit = true → plan.status = Status.DRAFT →
      plan.isWithinEntryWindow now = false →
        AnnualPlanTargetViewSet.performUpdate user plan iid tv bv rem =
          { resp := .ok (),
            plan := { plan with targets := plan.targets.map (fun t =>
              if t.indicatorId = iid then
                { t with targetValue := tv, baselineValue := bv, remarks := rem }
              else t) },
            newAudits := [logWorkflowAction user plan.unit .UPDATE (some plan.id) none
              ("Updated target for indicator " ++ toString iid)] }) ∧
    (∀ (user : AuthUser) (iid : Nat) (plan : AnnualPlan) (now : Nat),
      canUserAccessUnit user plan.unit = true → plan.status = Status.DRAFT →
      plan.isWithinEntryWindow now = false →
        AnnualPlanTargetViewSet.performDestroy user plan iid =
          { resp := .ok (),
            plan := { plan with targets := plan.targets.filter (fun t =>
              decide (t.indicatorId ≠ iid)) },
            newAudits := [logWorkflowAction user plan.unit .DELETE (some plan.id) none
              ("Deleted target for indicator " ++ toString iid)] }) ∧
    (∀ (user : AuthUser) (inds : List Indicator) (planId iid : Nat) (tv : Int)
        (bv : Option Int) (rem : String) (db : List AnnualPlan) (plan : AnnualPlan)
        (ind : Indicator) (now : Nat),
      db.find? (fun p => decide (p.id = planId)) = some plan →
      canUserAccessUnit user plan.unit = true → plan.status = Status.DRAFT →
      inds.find? (fun i => decide (i.id = iid)) = some ind →
      plan.isWithinEntryWindow now = false →
        (AnnualPlanTargetViewSet.performCreate user inds (some planId) iid tv bv rem db).1 =
          .ok () ∧
        (AnnualPlanTargetViewSet.performCreate user inds (some planId) iid tv bv rem db).2.1 =
          db.map (fun q => if q.id = planId then
            { plan with targets := plan.targets ++
              [{ indicatorId := ind.id, targetValue := tv, baselineValue := bv,
                 remarks := rem }] }
            else q)) ∧
    serializerSaveCollides targetCreateExplicitKwargs addTargetSaveKwargs = true ∧
    serializerSaveCollides entryCreateExplicitKwargs addEntrySaveKwargs = true ∧
    serializerSaveCollides targetCreateExplicitKwargs targetPerformCreateSaveKwargs = false ∧
    (∀ (user : AuthUser) (inds : List Indicator) (iid : Nat) (tv : Int)
        (bv : Option Int) (rem : String) (plan : AnnualPlan) (ind : Indicator),
      canUserAccessUnit user plan.unit = true → plan.status = Status.DRAFT →
      inds.find? (fun i => decide (i.id = iid) && decide (i.ownerUnit = plan.unit)) = some ind →
        AnnualPlanViewSet.addTarget user inds iid tv bv rem plan =
          { resp := .crash, plan := plan, newAudits := [] }) ∧
    (∀ (user : AuthUser) (inds : List Indicator) (iid : Nat) (av : Int) (rem : String)
        (report : QuarterlyReport) (ind : Indicator),
      canUserAccessUnit user report.unit = true → report.status = Status.DRAFT →
      inds.find? (fun i => decide (i.id = iid) && decide (i.ownerUnit = report.unit)) = some ind →
        QuarterlyReportViewSet.addEntry user inds iid av rem report =
          { resp := .crash, report := report, newAudits := [] }) := by
  refine ⟨?_, ?_, ?_, ?_, ?_, ?_, ?_, ?_, rfl, rfl, rfl, ?_, ?_⟩
  · intro user inds iid tv bv rem plan hacc hst
    simp [AnnualPlanViewSet.addTarget, hacc, hst]
  · intro user inds iid av rem report hacc hst
    simp [QuarterlyReportViewSet.addEntry, hacc, hst]
  · intro user iid tv bv rem plan hacc hst
    simp [AnnualPlanTargetViewSet.performUpdate, hacc, hst]
  · intro user iid plan hacc hst
    simp [AnnualPlanTargetViewSet.performDestroy, hacc, hst]
  · intro user inds planId iid tv bv rem db plan hplan hacc hst
    simp [AnnualPlanTargetViewSet.performCreate, hplan, hacc, hst]
  · intro user iid tv bv rem plan now hacc hst _hwin
    simp [AnnualPlanTargetViewSet.performUpdate, hacc, hst]
  · intro user iid plan now hacc hst _hwin
    simp [AnnualPlanTargetViewSet.performDestroy, hacc, hst]
  · intro user inds planId iid tv bv rem db plan ind now hplan hacc hst hind _hwin
    simp [AnnualPlanTargetViewSet.performCreate, hplan, hacc, hst, hind]
  · intro user inds iid tv bv rem plan ind hacc hst hfind
    have hc : serializerSaveCollides targetCreateExplicitKwargs addTargetSaveKwargs = true := rfl
    simp [AnnualPlanViewSet.addTarget, hacc, hst, hfind, hc]
  · intro user inds iid av rem report ind hacc hst hfind
    have hc : serializerSaveCollides entryCreateExplicitKwargs addEntrySaveKwargs = true := rfl
    simp [QuarterlyReportViewSet.addEntry, hacc, hst, hfind, hc]

/-- Claim C2 amended witness: on the concrete plan, the silent no-op of
perform_update outside DRAFT, its window-ignoring success on June 1,
2025, and the TypeError crash of add_target within DRAFT. -/
theorem C2_amended_edit_paths_witness :
    (AnnualPlanTargetViewSet.performUpdate advisorUser
        { draftPlan with status := .SUBMITTED } 7 200 none "" =
      { resp := .ok (), plan := { draftPlan with status := .SUBMITTED },
        newAudits := [] }) ∧
    (AnnualPlanTargetViewSet.performUpdate advisorUser draftPlan 7 200 none "" =
      { resp := .ok (),
        plan := { draftPlan with targets := draftPlan.targets.map (fun t =>
          if t.indicatorId = 7 then
            { t with targetValue := 200, baselineValue := none, remarks := "" }
          else t) },
        newAudits := [logWorkflowAction advisorUser draftPlan.unit .UPDATE
          (some draftPlan.id) none ("Updated target for indicator " ++ toString 7)] }) ∧
    (AnnualPlanViewSet.addTarget advisorUser [indicatorU1] 7 100 none "" draftPlan =
      { resp := .crash, plan := draftPlan, newAudits := [] }) :=
  ⟨C2_amended_edit_paths.2.2.1 advisorUser 7 200 none ""
      { draftPlan with status := .SUBMITTED } (by decide) (by decide),
   C2_amended_edit_paths.2.2.2.2.2.1 advisorUser 7 200 none "" draftPlan
      (dt 2025 6 1 0 0 0) (by decide) (by decide) (by decide),
   C2_amended_edit_paths.2.2.2.2.2.2.2.2.2.2.2.1 advisorUser [indicatorU1] 7 100 none ""
      draftPlan indicatorU1 (by decide) (by decide) (by decide)⟩

/-- Claim C4 counterexample: AnnualPlanTargetViewSet.perform_create is a
creation path for targets, yet with indicator 8 owned by unit 2 and the
plan owned by unit 1 it succeeds, stores the cross-unit target row and
writes a CREATE audit row, instead of failing with InvalidIndicator with
no row and no audit. -/
theorem C4_cross_unit_create_counterexample :
    indicatorU2.ownerUnit ≠ draftPlan.unit ∧
    (AnnualPlanTargetViewSet.performCreate advisorUser [indicatorU2] (some 1) 8 100 none ""
        [draftPlan]).1 = .ok () ∧
    (AnnualPlanTargetViewSet.performCreate advisorUser [indicatorU2] (some 1) 8 100 none ""
        [draftPlan]).2.1 =
      [{ draftPlan with targets := draftPlan.targets ++
          [{ indicatorId := 8, targetValue := 100, baselineValue := none, remarks := "" }] }] ∧
    (AnnualPlanTargetViewSet.performCreate advisorUser [indicatorU2] (some 1) 8 100 none ""
        [draftPlan]).2.2 ≠ [] := by
  decide

/-- Claim C4 amended: the add_target and add_entry action endpoints do
reject an indicator not owned by the parent's unit with InvalidIndicator,
creating no child row and no audit row; but the direct child-creation
endpoint AnnualPlanTargetViewSet.perform_create resolves the indicator by
id alone, so a cross-unit indicator reference there succeeds, creating
the child row and a CREATE audit row. -/
theorem C4_amended_cross_unit_indicator :
    (∀ (user : AuthUser) (inds : List Indicator) (iid : Nat) (tv : Int)
        (bv : Option Int) (rem : String) (plan : AnnualPlan),
      canUserAccessUnit user plan.unit = true → plan.status = Status.DRAFT →
        inds.find? (fun i => decide (i.id = iid) && decide (i.ownerUnit = plan.unit)) = none →
        AnnualPlanViewSet.addTarget user inds iid tv bv rem plan =
          { resp := .err .invalidIndicator, plan := plan, newAudits := [] }) ∧
    (∀ (user : AuthUser) (inds : List Indicator) (iid : Nat) (av : Int) (rem : String)
        (report : QuarterlyReport),
      canUserAccessUnit user report.unit = true → report.status = Status.DRAFT →
        inds.find? (fun i => decide (i.id = iid) && decide (i.ownerUnit = report.unit)) = none →
        QuarterlyReportViewSet.addEntry user inds iid av rem report =
          { resp := .err .invalidIndicator, report := report, newAudits := [] }) ∧
    (∀ (user : AuthUser) (inds : List Indicator) (planId iid : Nat) (tv : Int)
        (bv : Option Int) (rem : String) (db : List AnnualPlan) (plan : AnnualPlan)
        (ind : Indicator),
      db.find? (fun p => decide (p.id = planId)) = some plan →
      canUserAccessUnit user plan.unit = true → plan.status = Status.DRAFT →
      inds.find? (fun i => decide (i.id = iid)) = some ind →
      ind.ownerUnit ≠ plan.unit →
        (AnnualPlanTargetViewSet.performCreate user inds (some planId) iid tv bv rem db).1 =
          .ok () ∧
        (AnnualPlanTargetViewSet.performCreate user inds (some planId) iid tv bv rem db).2.2 =
          [logWorkflowAction user plan.unit .CREATE (some plan.id) none
            ("Added target for indicator " ++ ind.code)]) := by
  refine ⟨?_, ?_, ?_⟩
  · intro user inds iid tv bv rem plan hacc hst hfind
    simp [AnnualPlanViewSet.addTarget, hacc, hst, hfind]
  · intro user inds iid av rem report hacc hst hfind
    simp [QuarterlyReportViewSet.addEntry, hacc, hst, hfind]
  · intro user inds planId iid tv bv rem db plan ind hplan hacc hst hind _hunit
    simp [AnnualPlanTargetViewSet.performCreate, hplan, hacc, hst, hind]

/-- Claim C4 amended witness: the action endpoint rejects the cross-unit
indicator while perform_create stores it, at the concrete unit-1 plan and
unit-2 indicator. -/
theorem C4_amended_cross_unit_indicator_witness :
    (AnnualPlanViewSet.addTarget advisorUser [indicatorU2] 8 100 none "" draftPlan =
      { resp := .err .invalidIndicator, plan := draftPlan, newAudits := [] }) ∧
    (AnnualPlanTargetViewSet.performCreate advisorUser [indicatorU2] (some 1) 8 100 none ""
        [draftPlan]).1 = .ok () :=
  ⟨C4_amended_cross_unit_indicator.1 advisorUser [indicatorU2] 8 100 none "" draftPlan
      (by decide) (by decide) (by decide),
   (C4_amended_cross_unit_indicator.2.2 advisorUser [indicatorU2] 1 8 100 none ""
      [draftPlan] draftPlan indicatorU2 (by decide) (by decide) (by decide) (by decide)
      (by decide)).1⟩

/-- Claim C1: evaluation at the failing input.  Submitting the concrete
2025 Q1 draft report (one entry, authorized actor) passes every guard and
saves the SUBMITTED status, but the audit call of
QuarterlyReportViewSet.submit passes request.user as an extra leading
positional argument, so BaseViewSet.log_action binds unit to the User,
action to the Unit and context_plan to the SUBMIT string; the
WorkflowAudit insert raises a ValueError, the request crashes, and the
already-saved status mutation stays behind with no audit row at all —
neither exactly one SUBMIT-tagged row nor atomicity holds. -/
theorem C1_quarterly_submit_audit_broken :
    canUserAccessUnit advisorUser draftReportQ1.unit = true ∧
    draftReportQ1.status = Status.DRAFT ∧
    draftReportQ1.entries ≠ [] ∧
    (QuarterlyReportViewSet.submit advisorUser 777 draftReportQ1).resp = Resp.crash ∧
    (QuarterlyReportViewSet.submit advisorUser 777 draftReportQ1).report.status =
      Status.SUBMITTED ∧
    (QuarterlyReportViewSet.submit advisorUser 777 draftReportQ1).report.submittedAt =
      some 777 ∧
    (QuarterlyReportViewSet.submit advisorUser 777 draftReportQ1).newAudits = [] ∧
    (QuarterlyReportViewSet.submitLogCall advisorUser
      (QuarterlyReportViewSet.submit advisorUser 777 draftReportQ1).report).toOption = none := by
  decide

/-- Claim C3 counterexample: a STRATEGIC_AFFAIRS approver of unit 1 bulk
approves the SUBMITTED plan of unit 2 even though can_user_access_unit
fails for that unit: the loop makes no per-plan access check, so the plan
transitions, contradicting the claim that transition requires passing
can_access for the plan's unit. -/
theorem C3_bulk_no_per_plan_access_counterexample :
    canUserAccessUnit approverUser submittedPlanU2.unit = false ∧
    AnnualPlanViewSet.bulkApprove approverUser 99 [5] "r" [submittedPlanU2] [] =
      .ok ([{ submittedPlanU2 with
                status := .APPROVED, approvedBy := some 11, approvedAt := some 99 }],
           [logWorkflowAction approverUser 2 .APPROVE (some 5) none "Bulk approved: r"],
           1) := by
  decide

/-- Ids are unchanged by replacing the row whose id is pid. -/
lemma update_map_ids (pid : Nat) (p2 : AnnualPlan) (hp2 : p2.id = pid)
    (db : List AnnualPlan) :
    (db.map (fun q => if q.id = pid then p2 else q)).map AnnualPlan.id =
      db.map AnnualPlan.id := by
  rw [List.map_map]
  apply List.map_congr_left
  intro q _
  by_cases h : q.id = pid <;> simp [Function.comp, apply_ite, h, hp2]

/-- Looking up an id other than pid is unaffected by replacing the row
whose id is pid. -/
lemma find?_update_ne (pid i : Nat) (p2 : AnnualPlan) (hp2 : p2.id = pid)
    (hne : i ≠ pid) (db : List AnnualPlan) :
    (db.map (fun q => if q.id = pid then p2 else q)).find? (fun q => decide (q.id = i)) =
      db.find? (fun q => decide (q.id = i)) := by
  induction db with
  | nil => rfl
  | cons q rest ih =>
    simp only [List.map_cons, List.find?_cons]
    by_cases hq : q.id = pid
    · rw [if_pos hq]
      have h1 : decide (p2.id = i) = false := decide_eq_false (by rw [hp2]; exact Ne.symm hne)
      have h2 : decide (q.id = i) = false := decide_eq_false (by rw [hq]; exact Ne.symm hne)
      rw [h1, h2]
      exact ih
    · rw [if_neg hq]
      cases hqi : decide (q.id = i) with
      | false => exact ih
      | true => rfl

/-- Invariant of the bulk_approve loop: over distinct ids and a table of
distinct ids, the loop approves exactly the listed SUBMITTED rows, leaves
every other row untouched, appends one APPROVE audit row per transition,
and adds the number of transitions to the count. -/
lemma bulkApprove_loop_spec (user : AuthUser) (now : Nat) (reason : String)
    (ids : List Nat) :
    ∀ (db : List AnnualPlan) (audits : List WorkflowAudit) (count : Nat),
      ids.Nodup → (db.map AnnualPlan.id).Nodup →
      ∃ added : List WorkflowAudit,
        ids.foldl (AnnualPlanViewSet.bulkApproveStep user now reason)
            (db, audits, count) =
          (db.map (specBulkMark user now ids), audits ++ added,
            count + specBulkCount ids db) ∧
        added.length = specBulkCount ids db ∧
        ∀ row ∈ added, row.action = .APPROVE ∧ row.actor = user.id := by
  induction ids with
  | nil =>
    intro db audits count _ _
    have hmap : db.map (specBulkMark user now []) = db := by
      have h : ∀ p ∈ db, specBulkMark user now [] p = id p := by
        intro p _; simp [specBulkMark]
      rw [List.map_congr_left h, List.map_id]
    exact ⟨[], by simp [List.foldl, hmap, specBulkCount], by simp [specBulkCount], by simp⟩
  | cons pid rest ih =>
    intro db audits count hnodup hdbnodup
    obtain ⟨hpidrest, hrestnodup⟩ := List.nodup_cons.mp hnodup
    rw [List.foldl_cons]
    cases hf : db.find? (fun p => decide (p.id = pid)) with
    | none =>
      have hstep : AnnualPlanViewSet.bulkApproveStep user now reason
          (db, audits, count) pid = (db, audits, count) := by
        simp [AnnualPlanViewSet.bulkApproveStep, hf]
      rw [hstep]
      obtain ⟨added, heq, hlen, hall⟩ := ih db audits count hrestnodup hdbnodup
      have hne : ∀ p ∈ db, p.id ≠ pid := by
        intro p hp
        simpa using List.find?_eq_none.mp hf p hp
      have hmark : db.map (specBulkMark user now rest) =
          db.map (specBulkMark user now (pid :: rest)) := by
        apply List.map_congr_left
        intro p hp
        simp [specBulkMark, List.mem_cons, hne p hp]
      have hcnt : specBulkCount (pid :: rest) db = specBulkCount rest db := by
        simp [specBulkCount, List.countP_cons, hf]
      exact ⟨added, by rw [heq, hmark, hcnt], by rw [hlen, hcnt], hall⟩
    | some p =>
      have hpid : p.id = pid := by simpa using List.find?_some hf
      have hpmem : p ∈ db := List.mem_of_find?_eq_some hf
      have hinj := List.inj_on_of_nodup_map hdbnodup
      by_cases hs : p.status = Status.SUBMITTED
      · have hp2id : (AnnualPlanViewSet.approvePlanRow user now p).id = pid := by
          simp [AnnualPlanViewSet.approvePlanRow, hpid]
        have hstep : AnnualPlanViewSet.bulkApproveStep user now reason
            (db, audits, count) pid =
            (db.map (fun q => if q.id = pid then AnnualPlanViewSet.approvePlanRow user now p else q),
             audits ++ [logWorkflowAction user p.unit .APPROVE (some p.id) none
               ("Bulk approved: " ++ reason)],
             count + 1) := by
          simp [AnnualPlanViewSet.bulkApproveStep, hf, hs]
        rw [hstep]
        have hids : (db.map (fun q => if q.id = pid then AnnualPlanViewSet.approvePlanRow user now p else q)).map
            AnnualPlan.id = db.map AnnualPlan.id :=
          update_map_ids pid _ hp2id db
        obtain ⟨added, heq, hlen, hall⟩ :=
          ih (db.map (fun q => if q.id = pid then AnnualPlanViewSet.approvePlanRow user now p else q))
            (audits ++ [logWorkflowAction user p.unit .APPROVE (some p.id) none
              ("Bulk approved: " ++ reason)])
            (count + 1) hrestnodup (by rw [hids]; exact hdbnodup)
        have hmark : (db.map (fun q => if q.id = pid then AnnualPlanViewSet.approvePlanRow user now p else q)).map
            (specBulkMark user now rest) = db.map (specBulkMark user now (pid :: rest)) := by
          rw [List.map_map]
          apply List.map_congr_left
          intro q hq
          by_cases hqid : q.id = pid
          · have hqp : q = p := hinj hq hpmem (by rw [hqid, hpid])
            subst hqp
            simp [Function.comp, hqid, specBulkMark, List.mem_cons, hs,
              AnnualPlanViewSet.approvePlanRow, hpid]
          · simp [Function.comp, hqid, specBulkMark, List.mem_cons]
        have hcnt2 : specBulkCount rest
            (db.map (fun q => if q.id = pid then AnnualPlanViewSet.approvePlanRow user now p else q)) =
            specBulkCount rest db := by
          unfold specBulkCount
          apply List.countP_congr
          intro i hi
          have hine : i ≠ pid := fun h => hpidrest (h ▸ hi)
          rw [find?_update_ne pid i _ hp2id hine db]
        have hcnt : specBulkCount (pid :: rest) db = specBulkCount rest db + 1 := by
          simp [specBulkCount, List.countP_cons, hf, hs]
        refine ⟨logWorkflowAction user p.unit .APPROVE (some p.id) none
            ("Bulk approved: " ++ reason) :: added, ?_, ?_, ?_⟩
        · rw [heq, hmark, hcnt2, hcnt]
          rw [Prod.ext_iff]
          refine ⟨rfl, ?_⟩
          rw [Prod.ext_iff]
          exact ⟨by simp, by dsimp only; omega⟩
        · rw [List.length_cons, hlen, hcnt2, hcnt]
        · intro r hr
          rcases List.mem_cons.mp hr with h | h
          · subst h; exact ⟨rfl, rfl⟩
          · exact hall r h
      · have hstep : AnnualPlanViewSet.bulkApproveStep user now reason
            (db, audits, count) pid = (db, audits, count) := by
          simp [AnnualPlanViewSet.bulkApproveStep, hf, hs]
        rw [hstep]
        obtain ⟨added, heq, hlen, hall⟩ := ih db audits count hrestnodup hdbnodup
        have hmark : db.map (specBulkMark user now rest) =
            db.map (specBulkMark user now (pid :: rest)) := by
          apply List.map_congr_left
          intro q hq
          by_cases hqid : q.id = pid
          · have hqp : q = p := hinj hq hpmem (by rw [hqid, hpid])
            subst hqp
            simp [specBulkMark, List.mem_cons, hs]
          · simp [specBulkMark, List.mem_cons, hqid]
        have hcnt : specBulkCount (pid :: rest) db = specBulkCount rest db := by
          simp [specBulkCount, List.countP_cons, hf, hs]
        exact ⟨added, by rw [heq, hmark, hcnt], by rw [hlen, hcnt], hall⟩

/-- Claim C3 amended: for a bulk_approve call by an actor whose profile
role is SUPERADMIN or STRATEGIC_AFFAIRS, over a non-empty list of
distinct ids against a table of distinct ids, each listed plan
transitions to APPROVED iff it exists and its status is SUBMITTED — no
per-plan can_access check is made; skipped plans are left unchanged,
exactly one APPROVE audit row is appended per transitioned plan, and
approved_count equals the number of plans actually transitioned. -/
theorem C3_amended_bulk_approve (user : AuthUser) (now : Nat) (ids : List Nat)
    (reason : String) (db : List AnnualPlan) (audits : List WorkflowAudit)
    (profile : UserProfile)
    (hp : getUserProfile user = some profile)
    (hrole : roleCanApprove profile.role = true)
    (hne : ids ≠ [])
    (hids : ids.Nodup)
    (hdb : (db.map AnnualPlan.id).Nodup) :
    ∃ added : List WorkflowAudit,
      AnnualPlanViewSet.bulkApprove user now ids reason db audits =
        .ok (db.map (specBulkMark user now ids), audits ++ added,
          specBulkCount ids db) ∧
      added.length = specBulkCount ids db ∧
      ∀ row ∈ added, row.action = .APPROVE ∧ row.actor = user.id := by
  obtain ⟨added, heq, hlen, hall⟩ :=
    bulkApprove_loop_spec user now reason ids db audits 0 hids hdb
  refine ⟨added, ?_, hlen, hall⟩
  unfold AnnualPlanViewSet.bulkApprove
  rw [hp]
  simp [hrole, List.isEmpty_iff, hne, heq]

/-- Claim C3 amended witness: the approver bulk approves ids 1, 5 and 6
where plan 1 is DRAFT and id 6 is missing: only plan 5 transitions and
the count is 1. -/
theorem C3_amended_bulk_approve_witness :
    ∃ added : List WorkflowAudit,
      AnnualPlanViewSet.bulkApprove approverUser 99 [1, 5, 6] "r"
          [draftPlan, submittedPlanU2] [] =
        .ok ([draftPlan, submittedPlanU2].map (specBulkMark approverUser 99 [1, 5, 6]),
          [] ++ added, specBulkCount [1, 5, 6] [draftPlan, submittedPlanU2]) ∧
      added.length = specBulkCount [1, 5, 6] [draftPlan, submittedPlanU2] ∧
      ∀ row ∈ added, row.action = .APPROVE ∧ row.actor = approverUser.id :=
  C3_amended_bulk_approve approverUser 99 [1, 5, 6] "r" [draftPlan, submittedPlanU2] []
    { role := .STRATEGIC_AFFAIRS, unit := 1 } (by decide) (by decide) (by decide)
    (by decide) (by decide)

/-- Claim C5: evaluation at the failing input.  An authenticated user
with no profile row receives no rejection: listing annual plans
dereferences profile.role on None and crashes (the profile gate in
BaseViewSet.dispatch is commented out), and bulk_approve and
performance_summary crash the same way. -/
theorem C5_missing_profile_crashes :
    getUserProfile noProfileUser = none ∧
    noProfileUser.isAnonymous = false ∧
    AnnualPlanViewSet.getQueryset noProfileUser none 2025 [draftPlan] = Resp.crash ∧
    AnnualPlanViewSet.bulkApprove noProfileUser 0 [1] "" [draftPlan] [] = Resp.crash ∧
    AuditViewSet.performanceSummary noProfileUser 2025 [draftPlan] [] = Resp.crash := by
  decide

end Plans
